import Mathlib

/-!
Verification development for the redistribution-client-checker script
(src/app.py).  The script is shallowly embedded below: Python dictionary
values become the inductive type PyVal, Python exceptions become the
error side of Except, and the observable side effects of the script
(netmiko session operations, management-API calls, log statements at
decision points) are recorded as an explicit event list.  Pure content
dumps done with logging.debug (lines 131-136, 171, 185, 193, 205 of the
source) are elided from the event log; log events are kept at the
control-flow decision points the specification talks about.
-/

/-- Python exceptions that can escape the script. -/
inductive PyErr where
  | keyError (key : String)
  | nameError (name : String)
  | typeError (msg : String)
  | panError (msg : String)
deriving DecidableEq

/-- Python values as produced by xmltodict.parse: None, booleans, strings,
dicts and lists. -/
inductive PyVal where
  | none
  | bool (b : Bool)
  | str (s : String)
  | dict (kvs : List (String × PyVal))
  | list (elems : List PyVal)

/-- Python subscription v[k] with a string key: returns the dict entry or
raises KeyError; raises TypeError on non-dict values. -/
def PyVal.getItem : PyVal → String → Except PyErr PyVal
  | .dict kvs, k =>
    match kvs.lookup k with
    | Option.some v => .ok v
    | Option.none => .error (.keyError k)
  | .list _, _ => .error (.typeError "list indices must be integers or slices")
  | .str _, _ => .error (.typeError "string indices must be integers")
  | .bool _, _ => .error (.typeError "bool object is not subscriptable")
  | .none, _ => .error (.typeError "NoneType object is not subscriptable")

/-- Python identity test v is None. -/
def PyVal.isNone : PyVal → Bool
  | .none => true
  | _ => false

/-- Observable actions of one run: the netmiko session operations, the
log statements at decision points, and the management-API operations. -/
inductive Event where
  | connect
  | send (cmd : String)
  | disconnect
  | logDebug (msg : String)
  | logError (msg : String)
  | refreshSystemInfo
  | panOp (cmd : String)
  | fwOp (serial : PyVal) (cmd : String)

def Event.isDisconnect : Event → Bool
  | .disconnect => true
  | _ => false

/-- Management-API operations (everything issued through the pysdk
Panorama or Firewall objects, as opposed to the netmiko text session). -/
def Event.isApiOp : Event → Bool
  | .refreshSystemInfo => true
  | .panOp _ => true
  | .fwOp _ _ => true
  | _ => false

def Event.isFwOp : Event → Bool
  | .fwOp _ _ => true
  | _ => false

def Event.isPanOp : Event → Bool
  | .panOp _ => true
  | _ => false

/- ------------------------------------------------------------------ -/
/- StatusTextParser: parse_status_command_output, lines 82-106.        -/
/- The three re.search calls are embedded as explicit scans.  The      -/
/- character classes are the ASCII fragments of the Python classes     -/
/- (all inputs of interest are ASCII).                                 -/
/- ------------------------------------------------------------------ -/

/-- ASCII fragment of the regex class backslash-s. -/
def isSpaceChar (c : Char) : Bool :=
  c = ' ' || c = '\t' || c = '\n' || c = '\r' || c = '\x0b' || c = '\x0c'

/-- ASCII fragment of the regex class backslash-w. -/
def isWordChar (c : Char) : Bool := c.isAlphanum || c = '_'

/-- ASCII fragment of the regex class backslash-d. -/
def isDigitChar (c : Char) : Bool := c.isDigit

/-- Match a literal pattern at the head of the input, returning the
remainder on success. -/
def matchLiteral : List Char → List Char → Option (List Char)
  | [], s => some s
  | _ :: _, [] => none
  | p :: ps, c :: cs => if c = p then matchLiteral ps cs else none

/-- re.search: try the pattern matcher at every start position, left to
right, and return the first successful capture. -/
def searchWith (f : List Char → Option (List Char)) : List Char → Option (List Char)
  | [] => f []
  | c :: cs =>
    match f (c :: cs) with
    | some r => some r
    | none => searchWith f cs

/-- Matcher for the pattern "Redistribution service:" backslash-s+
capture of backslash-w+ at one position: the literal, then at least one
whitespace character, then a maximal nonempty word-character run (the
two classes are disjoint, so greedy matching needs no backtracking). -/
def matchStatusAt (s : List Char) : Option (List Char) :=
  match matchLiteral "Redistribution service:".data s with
  | none => none
  | some rest =>
    let sp := rest.takeWhile isSpaceChar
    let rest2 := rest.dropWhile isSpaceChar
    if sp.isEmpty then none
    else
      let w := rest2.takeWhile isWordChar
      if w.isEmpty then none else some w

/-- Matcher for "number of clients:" backslash-s+ capture of
backslash-d+ at one position, same shape as the status matcher. -/
def matchClientsAt (s : List Char) : Option (List Char) :=
  match matchLiteral "number of clients:".data s with
  | none => none
  | some rest =>
    let sp := rest.takeWhile isSpaceChar
    let rest2 := rest.dropWhile isSpaceChar
    if sp.isEmpty then none
    else
      let d := rest2.takeWhile isDigitChar
      if d.isEmpty then none else some d

/-- Matcher for "SSL config:" backslash-s+ capture of dot-plus at one
position.  Dot matches anything but a newline, and whitespace and dot
overlap, so the greedy whitespace run backtracks: if a non-whitespace
character follows the whitespace run the capture is the maximal
non-newline run from there; if the whitespace run extends to the end of
the input the capture backtracks to the last non-newline whitespace
character at offset at least one, when such a character exists. -/
def matchSslAt (s : List Char) : Option (List Char) :=
  match matchLiteral "SSL config:".data s with
  | none => none
  | some rest =>
    let sp := rest.takeWhile isSpaceChar
    let rest2 := rest.dropWhile isSpaceChar
    if sp.isEmpty then none
    else
      match rest2 with
      | _ :: _ => some (rest2.takeWhile (fun c => !(c = '\n')))
      | [] =>
        match (sp.drop 1).reverse.find? (fun c => !(c = '\n')) with
        | some c => some [c]
        | none => none

/-- Python str.lower on one character (ASCII fragment). -/
def pyLowerChar (c : Char) : Char :=
  if 'A' ≤ c && c ≤ 'Z' then Char.ofNat (c.toNat + 32) else c

/-- The ssl_config post-transform of lines 98-101: lower() followed by
replace(" ", "_"), which acts independently on each character. -/
def sslTransformChar (c : Char) : Char :=
  if c = ' ' then '_' else pyLowerChar c

/-- int() on a captured digit string. -/
def digitsToNat (ds : List Char) : Nat :=
  ds.foldl (fun a c => a * 10 + (c.toNat - 48)) 0

/-- The parsed_data dict: each key is present exactly when its pattern
matched somewhere in the output. -/
structure GateStatus where
  redistribution_status : Option String
  ssl_config : Option String
  number_of_clients : Option Nat
deriving DecidableEq

/-- parse_status_command_output, lines 82-106: three independent
searches, then the ssl_config and number_of_clients transforms. -/
def parse_status_command_output (output : String) : GateStatus :=
  { redistribution_status := (searchWith matchStatusAt output.data).map (fun w => String.mk w)
    ssl_config := (searchWith matchSslAt output.data).map (fun w => String.mk (w.map sslTransformChar))
    number_of_clients := (searchWith matchClientsAt output.data).map digitsToNat }

/- ------------------------------------------------------------------ -/
/- Commands issued by the script.                                      -/
/- ------------------------------------------------------------------ -/

def statusCmdText : String := "show redistribution service status"

def redistAllCmd : String :=
  "<show><redistribution><service><client>all</client></service></redistribution></show>"

def connectedCmd : String := "<show><devices><connected/></devices></show>"

def sysInfoCmd : String := "<show><system><info/></system></show>"

def Event.isConnectedOp : Event → Bool
  | .panOp c => c == connectedCmd
  | _ => false

def Event.isRedistOp : Event → Bool
  | .panOp c => c == redistAllCmd
  | _ => false

/- ------------------------------------------------------------------ -/
/- DeviceFactCollector: the body of the per-firewall loop,             -/
/- lines 197-229.                                                      -/
/- ------------------------------------------------------------------ -/

/-- The fw dict built at lines 212-227: descriptive fields from the
system-info response plus the redistr_server flag. -/
structure Fw where
  hostname : PyVal
  ipaddress : PyVal
  serial : PyVal
  model : PyVal
  sw_version : PyVal
  app_version : PyVal
  device_cert_status : PyVal
  redistr_server : Bool

/-- Line 211: system_info["response"]["result"]["system"]. -/
def systemInfoDict (system_info : PyVal) : Except PyErr PyVal := do
  let response ← system_info.getItem "response"
  let result ← response.getItem "result"
  result.getItem "system"

/-- Lines 211-227: build the fw record from the two parsed responses.
Field accesses happen in source order, so the first missing key
determines the KeyError raised; the redistribution response is only
consulted (lines 221-224) after all system-info fields, and only for
whether its result is None. -/
def buildFw (redist_client_firewall_info system_info : PyVal) : Except PyErr Fw := do
  let fw_info ← systemInfoDict system_info
  let hostname ← fw_info.getItem "hostname"
  let ipaddress ← fw_info.getItem "ip-address"
  let serial ← fw_info.getItem "serial"
  let model ← fw_info.getItem "model"
  let sw_version ← fw_info.getItem "sw-version"
  let app_version ← fw_info.getItem "app-version"
  let device_cert_status ← fw_info.getItem "device-certificate-status"
  let redistResponse ← redist_client_firewall_info.getItem "response"
  let redistResult ← redistResponse.getItem "result"
  pure { hostname := hostname, ipaddress := ipaddress, serial := serial, model := model,
         sw_version := sw_version, app_version := app_version,
         device_cert_status := device_cert_status,
         redistr_server := !redistResult.isNone }

/-- One iteration of the loop at lines 197-229 for the firewall with the
given serial: the two firewall.op calls in source order (the second is
not issued when the first raises), then the pure record construction.
The environment functions fwRedist and fwSys give the parsed
response of each op, or the exception it raises. -/
def collectOne (fwRedist fwSys : PyVal → Except PyErr PyVal) (serial : PyVal) :
    Except PyErr Fw × List Event :=
  match fwRedist serial with
  | .error e => (.error e, [Event.fwOp serial redistAllCmd])
  | .ok redistInfo =>
    match fwSys serial with
    | .error e => (.error e, [Event.fwOp serial redistAllCmd, Event.fwOp serial sysInfoCmd])
    | .ok sysInfo =>
      (buildFw redistInfo sysInfo,
       [Event.fwOp serial redistAllCmd, Event.fwOp serial sysInfoCmd])

/-- The whole loop at lines 197-229 over pan.children: there is no
try/except in the loop body, so the first raising iteration aborts the
loop (and the script) with that exception; on success the appended
records are returned in iteration order. -/
def collectLoop (fwRedist fwSys : PyVal → Except PyErr PyVal) :
    List PyVal → Except PyErr (List Fw) × List Event
  | [] => (.ok [], [])
  | serial :: rest =>
    match collectOne fwRedist fwSys serial with
    | (.error e, evs) => (.error e, evs)
    | (.ok fw, evs) =>
      match collectLoop fwRedist fwSys rest with
      | (r, evs2) => (r.map (fun fws => fw :: fws), evs ++ evs2)

/- ------------------------------------------------------------------ -/
/- Member enumeration and registration, lines 173-182.                 -/
/- ------------------------------------------------------------------ -/

/-- Lines 174 and 170-174: list_of_redist_clients["response"]["result"]["entry"]. -/
def getEntry (list_of_redist_clients : PyVal) : Except PyErr PyVal := do
  let response ← list_of_redist_clients.getItem "response"
  let result ← response.getItem "result"
  result.getItem "entry"

/-- The for-loop of lines 180-182: one Firewall per element, keyed by
its "host" value, registered in sequence order. -/
def regList : List PyVal → Except PyErr (List PyVal)
  | [] => .ok []
  | e :: rest =>
    match e.getItem "host" with
    | .error err => .error err
    | .ok h =>
      match regList rest with
      | .error err => .error err
      | .ok hs => .ok (h :: hs)

/-- Lines 173-182: isinstance(entry, dict) registers a single Firewall
from entry["host"]; otherwise the entry is iterated.  Iterating a
string visits its characters (each of which raises TypeError when
subscripted, unless the string is empty), and iterating None raises
TypeError. -/
def registerMembers : PyVal → Except PyErr (List PyVal)
  | .dict kvs =>
    match (PyVal.dict kvs).getItem "host" with
    | .error err => .error err
    | .ok h => .ok [h]
  | .list l => regList l
  | .str s =>
    match s.data with
    | [] => .ok []
    | _ :: _ => .error (.typeError "string indices must be integers")
  | .bool _ => .error (.typeError "bool object is not iterable")
  | .none => .error (.typeError "NoneType object is not iterable")

/- ------------------------------------------------------------------ -/
/- The audit phase: lines 149-240, entered when the gate passes.       -/
/- ------------------------------------------------------------------ -/

/-- Outcome of a completed (non-raising) run: either the gate condition
was false and the script fell off the end of the if statement, or the
audit ran and the table of the accumulated records was printed. -/
inductive MainResult where
  | skipped
  | completed (report : List Fw)

/-- Lines 187-240, given the registered children: the connected-devices
pan.op (line 189; its parsed value is bound at line 192 and never used
afterwards, which is why the ok branch ignores it), then the collection
loop and the table print. -/
def afterConnected (connectedResp : Except PyErr PyVal) (children : List PyVal)
    (fwRedist fwSys : PyVal → Except PyErr PyVal) :
    Except PyErr MainResult × List Event :=
  match connectedResp with
  | .error e => (.error e, [Event.panOp redistAllCmd, Event.panOp connectedCmd])
  | .ok _ =>
    ((collectLoop fwRedist fwSys children).1.map MainResult.completed,
     [Event.panOp redistAllCmd, Event.panOp connectedCmd] ++
       (collectLoop fwRedist fwSys children).2)

/-- Lines 173-240 given the outcome of the Firewall registration of the
entry field (a raised exception there propagates). -/
def afterRegister (regRes : Except PyErr (List PyVal)) (connectedResp : Except PyErr PyVal)
    (fwRedist fwSys : PyVal → Except PyErr PyVal) :
    Except PyErr MainResult × List Event :=
  match regRes with
  | .error e => (.error e, [Event.panOp redistAllCmd])
  | .ok children => afterConnected connectedResp children fwRedist fwSys

/-- Lines 173-240 given the outcome of extracting the entry field from
the enumeration response (a KeyError there propagates). -/
def afterEntry (entryRes : Except PyErr PyVal) (connectedResp : Except PyErr PyVal)
    (fwRedist fwSys : PyVal → Except PyErr PyVal) :
    Except PyErr MainResult × List Event :=
  match entryRes with
  | .error e => (.error e, [Event.panOp redistAllCmd])
  | .ok entry => afterRegister (registerMembers entry) connectedResp fwRedist fwSys

/-- Lines 163-240, everything after the credential-validation try block:
the enumeration pan.op, the entry extraction and Firewall registration,
the connected-devices pan.op, and the collection loop.  The environment
supplies the parsed response of each pan.op, or the exception it
raises. -/
def auditAfterRefresh (enumResp connectedResp : Except PyErr PyVal)
    (fwRedist fwSys : PyVal → Except PyErr PyVal) :
    Except PyErr MainResult × List Event :=
  match enumResp with
  | .error e => (.error e, [Event.panOp redistAllCmd])
  | .ok list_of_redist_clients =>
    afterEntry (getEntry list_of_redist_clients) connectedResp fwRedist fwSys

/-- Lines 156-161: the pan.refresh_system_info() call and its log line.
A PanDeviceError is caught and logged at error level; execution
continues into the rest of the audit phase in both cases. -/
def refreshEvents (refreshRaises : Bool) : List Event :=
  Event.refreshSystemInfo ::
    (if refreshRaises then [Event.logError "Failed to connect to Panorama"]
     else [Event.logDebug "Successfully connected to Panorama with credientials"])

/-- Lines 149-240: the audit phase.  The refresh outcome contributes
only its log event; the result is that of auditAfterRefresh. -/
def auditPhase (refreshRaises : Bool) (enumResp connectedResp : Except PyErr PyVal)
    (fwRedist fwSys : PyVal → Except PyErr PyVal) :
    Except PyErr MainResult × List Event :=
  ((auditAfterRefresh enumResp connectedResp fwRedist fwSys).1,
   refreshEvents refreshRaises ++ (auditAfterRefresh enumResp connectedResp fwRedist fwSys).2)

/- ------------------------------------------------------------------ -/
/- The whole script body, lines 115-240.                               -/
/- ------------------------------------------------------------------ -/

/-- Lines 115-240.  netConnect is whether ConnectHandler succeeded
(connect_to_panorama returns None on failure); sendResult is what
send_command_to_panorama returns (none models the caught exception
returning None, some "" an empty output).  When the command output is
falsy, parsed_output is never assigned, and line 145 then raises
NameError; when it is assigned but a gate key is absent, line 145/147
raises KeyError.  The netmiko disconnect of line 140 happens before the
gate check and therefore before any management-API operation. -/
def runMain (netConnect : Bool) (sendResult : Option String) (refreshRaises : Bool)
    (enumResp connectedResp : Except PyErr PyVal)
    (fwRedist fwSys : PyVal → Except PyErr PyVal) :
    Except PyErr MainResult × List Event :=
  if netConnect then
    let sendEvents := [Event.connect, Event.send statusCmdText] ++
      (match sendResult with
       | Option.none => [Event.logError "Error sending command"]
       | Option.some _ => [])
    let parsedOutput : Option GateStatus :=
      match sendResult with
      | Option.some out =>
        if out = "" then Option.none else Option.some (parse_status_command_output out)
      | Option.none => Option.none
    let gateEvents := sendEvents ++
      (match parsedOutput with
       | Option.some _ => []
       | Option.none => [Event.logDebug "No output received from the command."]) ++
      [Event.disconnect]
    match parsedOutput with
    | Option.none => (.error (.nameError "parsed_output"), gateEvents)
    | Option.some p =>
      match p.redistribution_status with
      | Option.none => (.error (.keyError "redistribution_status"), gateEvents)
      | Option.some st =>
        if st = "up" then
          match p.ssl_config with
          | Option.none => (.error (.keyError "ssl_config"), gateEvents)
          | Option.some ssl =>
            if ssl = "default_certificates" then
              ((auditPhase refreshRaises enumResp connectedResp fwRedist fwSys).1,
               gateEvents ++ (auditPhase refreshRaises enumResp connectedResp fwRedist fwSys).2)
            else (.ok .skipped, gateEvents)
        else (.ok .skipped, gateEvents)
  else
    (.error (.nameError "parsed_output"),
     [Event.connect, Event.logError "Error connecting to the device",
      Event.logError "Unable to establish connection with the device."])

/- ------------------------------------------------------------------ -/
/- Report rendering, lines 231-240 (tabulate itself is external).      -/
/- ------------------------------------------------------------------ -/

/-- Values of one fw dict, in key insertion order. -/
def fwRow (fw : Fw) : List PyVal :=
  [fw.hostname, fw.ipaddress, fw.serial, fw.model, fw.sw_version, fw.app_version,
   fw.device_cert_status, PyVal.bool fw.redistr_server]

/-- Keys of the fw dicts, in insertion order (line 232). -/
def fwHeaders : List String :=
  ["hostname", "ipaddress", "serial", "model", "sw_version", "app_version",
   "device_cert_status", "redistr_server"]

/-- Lines 231-238: the headers and rows handed to tabulate. -/
def renderTable (report : List Fw) : List String × List (List PyVal) :=
  (if report.isEmpty then [] else fwHeaders, report.map fwRow)

/- ------------------------------------------------------------------ -/
/- Concrete fixtures used by the claim theorems.                       -/
/- ------------------------------------------------------------------ -/

/-- Command outputs realizing each combination of the two gate fields. -/
def gateTextPass : String :=
  "Redistribution service: up\nSSL config: Default certificates\nnumber of clients: 3"

def gateTextUpCustom : String :=
  "Redistribution service: up\nSSL config: Custom certificates\nnumber of clients: 3"

def gateTextDownDefault : String :=
  "Redistribution service: down\nSSL config: Default certificates\nnumber of clients: 0"

def gateTextDownCustom : String :=
  "Redistribution service: down\nSSL config: Custom certificates\nnumber of clients: 0"

def gateTextNoSsl : String := "Redistribution service: up\nnumber of clients: 3"

def gateTextNoStatus : String := "SSL config: Default certificates"

def gateTextUnrelated : String := "fan speed nominal"

/-- One enumeration entry object. -/
def enumEntryDict (h : String) : PyVal := PyVal.dict [("host", PyVal.str h)]

/-- A full parsed enumeration response around the given entry field. -/
def enumRespOf (entry : PyVal) : PyVal :=
  PyVal.dict [("response", PyVal.dict [("result", PyVal.dict [("entry", entry)])])]

/-- A per-firewall redistribution-clients response whose result is not
None. -/
def redistOkResp : PyVal :=
  PyVal.dict [("response", PyVal.dict [("result", PyVal.dict [("entry", PyVal.str "c1")])])]

/-- A complete per-firewall system-info response named after the
firewall. -/
def sysOkResp (n : String) : PyVal :=
  PyVal.dict [("response", PyVal.dict [("result", PyVal.dict [("system", PyVal.dict
    [("hostname", PyVal.str n), ("ip-address", PyVal.str "10.0.0.1"),
     ("serial", PyVal.str n), ("model", PyVal.str "PA-440"),
     ("sw-version", PyVal.str "10.2.3"), ("app-version", PyVal.str "8700-1234"),
     ("device-certificate-status", PyVal.str "Valid")])])])]

/-- The record buildFw assembles from redistOkResp and sysOkResp. -/
def fwRecordFor (n : String) : Fw :=
  { hostname := PyVal.str n, ipaddress := PyVal.str "10.0.0.1", serial := PyVal.str n,
    model := PyVal.str "PA-440", sw_version := PyVal.str "10.2.3",
    app_version := PyVal.str "8700-1234", device_cert_status := PyVal.str "Valid",
    redistr_server := true }

def fwRedistGood : PyVal → Except PyErr PyVal := fun _ => Except.ok redistOkResp

def fwSysGood : PyVal → Except PyErr PyVal := fun s =>
  match s with
  | PyVal.str n => Except.ok (sysOkResp n)
  | _ => Except.error (.panError "unexpected serial")

/-- System-info oracle whose query raises for FW2 and succeeds for
every other firewall. -/
def fwSysFailAtFW2 : PyVal → Except PyErr PyVal := fun s =>
  match s with
  | PyVal.str "FW2" => Except.error (.panError "timeout")
  | PyVal.str n => Except.ok (sysOkResp n)
  | _ => Except.error (.panError "unexpected serial")

/-- A system-info response with hostname and ip-address but no serial. -/
def sysRespNoSerial : PyVal :=
  PyVal.dict [("response", PyVal.dict [("result", PyVal.dict [("system", PyVal.dict
    [("hostname", PyVal.str "FW1"), ("ip-address", PyVal.str "10.0.0.1"),
     ("model", PyVal.str "PA-440")])])])]

/-- System-info oracle returning the serial-less response for FW1 and a
complete one otherwise. -/
def fwSysNoSerialAtFW1 : PyVal → Except PyErr PyVal := fun s =>
  match s with
  | PyVal.str "FW1" => Except.ok sysRespNoSerial
  | PyVal.str n => Except.ok (sysOkResp n)
  | _ => Except.error (.panError "unexpected serial")

def constOkNone : PyVal → Except PyErr PyVal := fun _ => Except.ok PyVal.none

/-- Enumeration entry field listing three members. -/
def memberList3 : PyVal :=
  PyVal.list [enumEntryDict "FW1", enumEntryDict "FW2", enumEntryDict "FW3"]

/-- A realistic full command output containing all three patterns amid
other lines. -/
def statusOutputSample : String :=
  "admin> show redistribution service status\n\nRedistribution service:           up\n    listening port:           5007\n    SSL config:               Default certificates\nnumber of clients:    3\n"

/-- The events the loop would emit while the listed members all collect
successfully: the two ops of each member, in member order. -/
def eventsOfList (fr fs : PyVal → Except PyErr PyVal) : List PyVal → List Event
  | [] => []
  | x :: rest => (collectOne fr fs x).2 ++ eventsOfList fr fs rest

/-- The system dict of sysRespNoSerial. -/
def noSerialSysd : PyVal :=
  PyVal.dict [("hostname", PyVal.str "FW1"), ("ip-address", PyVal.str "10.0.0.1"),
    ("model", PyVal.str "PA-440")]

/- ------------------------------------------------------------------ -/
/- Claim theorems.                                                     -/
/- ------------------------------------------------------------------ -/

/-- C1.  The four combinations with both fields set follow the decision
table of lines 145-148: the audit runs exactly for status "up" with ssl
"default_certificates", and any other set-set combination ends as a
skip.  But when either field is unset the run does not end as
GateSkipped: line 145 or 147 raises KeyError, because parsed_output is
subscripted with brackets rather than read with get.  This contradicts
the claim (and the specification), which requires GateSkipped for every
non-passing combination including unset fields. -/
theorem c1_gate_decision_table :
    (runMain true (some gateTextPass) false (.ok (enumRespOf (enumEntryDict "FW1")))
        (.ok PyVal.none) fwRedistGood fwSysGood).1 =
      .ok (.completed [fwRecordFor "FW1"]) ∧
    (runMain true (some gateTextUpCustom) false (.ok (enumRespOf (enumEntryDict "FW1")))
        (.ok PyVal.none) fwRedistGood fwSysGood).1 = .ok .skipped ∧
    (runMain true (some gateTextDownDefault) false (.ok (enumRespOf (enumEntryDict "FW1")))
        (.ok PyVal.none) fwRedistGood fwSysGood).1 = .ok .skipped ∧
    (runMain true (some gateTextDownCustom) false (.ok (enumRespOf (enumEntryDict "FW1")))
        (.ok PyVal.none) fwRedistGood fwSysGood).1 = .ok .skipped ∧
    (runMain true (some gateTextNoSsl) false (.ok (enumRespOf (enumEntryDict "FW1")))
        (.ok PyVal.none) fwRedistGood fwSysGood).1 = .error (.keyError "ssl_config") ∧
    (runMain true (some gateTextNoStatus) false (.ok (enumRespOf (enumEntryDict "FW1")))
        (.ok PyVal.none) fwRedistGood fwSysGood).1 =
      .error (.keyError "redistribution_status") ∧
    (runMain true (some gateTextUnrelated) false (.ok (enumRespOf (enumEntryDict "FW1")))
        (.ok PyVal.none) fwRedistGood fwSysGood).1 =
      .error (.keyError "redistribution_status") :=
  ⟨rfl, rfl, rfl, rfl, rfl, rfl, rfl⟩

/-- C3.  When the gate command produces no output (an empty string, or
None because send_command_to_panorama caught an exception), the script
logs the absence and disconnects, and the rest of the pipeline is never
entered (no management-API event appears in the trace) — but the run
does not end as a logged GateSkipped: parsed_output was never assigned,
so line 145 raises NameError. -/
theorem c3_no_output_nameerror :
    runMain true (some "") false (.ok PyVal.none) (.ok PyVal.none) constOkNone constOkNone =
      (.error (.nameError "parsed_output"),
       [Event.connect, Event.send statusCmdText,
        Event.logDebug "No output received from the command.", Event.disconnect]) ∧
    runMain true none false (.ok PyVal.none) (.ok PyVal.none) constOkNone constOkNone =
      (.error (.nameError "parsed_output"),
       [Event.connect, Event.send statusCmdText, Event.logError "Error sending command",
        Event.logDebug "No output received from the command.", Event.disconnect]) :=
  ⟨rfl, rfl⟩

/-- C7.  For every status text in which all three pattern searches
succeed, parse returns a record with all three fields set: the status
field is the status capture, the ssl_config field is the ssl capture
lowercased with spaces replaced by underscores, and the
number_of_clients field is the digit capture parsed to an integer. -/
theorem c7_parse_all_fields (s : String) (w1 w2 w3 : List Char)
    (h1 : searchWith matchStatusAt s.data = some w1)
    (h2 : searchWith matchSslAt s.data = some w2)
    (h3 : searchWith matchClientsAt s.data = some w3) :
    parse_status_command_output s =
      { redistribution_status := some (String.mk w1),
        ssl_config := some (String.mk (w2.map sslTransformChar)),
        number_of_clients := some (digitsToNat w3) } := by
  simp [parse_status_command_output, h1, h2, h3]

/-- Witness for C7: on a realistic full command output the three
captures are "up", "Default certificates" and "3", and the theorem
yields exactly the record of the claim's example. -/
theorem c7_witness :
    parse_status_command_output statusOutputSample =
      { redistribution_status := some "up", ssl_config := some "default_certificates",
        number_of_clients := some 3 } :=
  c7_parse_all_fields statusOutputSample "up".data "Default certificates".data "3".data
    rfl rfl rfl

/-- C2 counterexample.  Three members are enumerated and the system-info
query of member FW2 raises.  The claim asserts the report then has
exactly the two entries FW1 and FW3 and that collection continues with
FW3; in fact the loop body has no exception handling, so the run ends
with the propagated exception — the result is an error, not a report,
and the trace stops at the failed query of FW2, FW3 never being
queried. -/
theorem c2_counterexample :
    runMain true (some gateTextPass) false (.ok (enumRespOf memberList3)) (.ok PyVal.none)
        fwRedistGood fwSysFailAtFW2 =
      (.error (.panError "timeout"),
       [Event.connect, Event.send statusCmdText, Event.disconnect, Event.refreshSystemInfo,
        Event.logDebug "Successfully connected to Panorama with credientials",
        Event.panOp redistAllCmd, Event.panOp connectedCmd,
        Event.fwOp (PyVal.str "FW1") redistAllCmd, Event.fwOp (PyVal.str "FW1") sysInfoCmd,
        Event.fwOp (PyVal.str "FW2") redistAllCmd,
        Event.fwOp (PyVal.str "FW2") sysInfoCmd]) :=
  rfl

/-- C4 counterexample.  The management-API identity validation raises
(refreshRaises is true), yet the audit does not abort: the error is
merely logged, and enumeration, the connected-devices query, and the
per-device queries all still happen, the run completing with a full
report — contradicting the claim that nothing is performed after the
failed validation. -/
theorem c4_counterexample :
    runMain true (some gateTextPass) true (.ok (enumRespOf (enumEntryDict "FW1")))
        (.ok PyVal.none) fwRedistGood fwSysGood =
      (.ok (.completed [fwRecordFor "FW1"]),
       [Event.connect, Event.send statusCmdText, Event.disconnect, Event.refreshSystemInfo,
        Event.logError "Failed to connect to Panorama",
        Event.panOp redistAllCmd, Event.panOp connectedCmd,
        Event.fwOp (PyVal.str "FW1") redistAllCmd,
        Event.fwOp (PyVal.str "FW1") sysInfoCmd]) :=
  rfl

/-- Ok-bind reduction for the Except monad. -/
lemma exceptBind_ok {α β : Type} (a : α) (f : α → Except PyErr β) :
    (Except.ok a >>= f) = f a := rfl

/-- Error-bind reduction for the Except monad. -/
lemma exceptBind_error {α β : Type} (e : PyErr) (f : α → Except PyErr β) :
    ((Except.error e : Except PyErr α) >>= f) = Except.error e := rfl

/-- Every event emitted by one collection iteration is a firewall op. -/
lemma collectOne_events_fwOp (fr fs : PyVal → Except PyErr PyVal) (s : PyVal) :
    ((collectOne fr fs s).2).all Event.isFwOp = true := by
  unfold collectOne
  cases h1 : fr s with
  | error e => rfl
  | ok r =>
    cases h2 : fs s with
    | error e => rfl
    | ok si => rfl

/-- Every event emitted by the collection loop is a firewall op. -/
lemma collectLoop_events_fwOp (fr fs : PyVal → Except PyErr PyVal) (l : List PyVal) :
    ((collectLoop fr fs l).2).all Event.isFwOp = true := by
  induction l with
  | nil => rfl
  | cons s rest ih =>
    have h1 := collectOne_events_fwOp fr fs s
    unfold collectLoop
    rcases hc : collectOne fr fs s with ⟨r, evs⟩
    rw [hc] at h1
    cases r with
    | error e => exact h1
    | ok fw =>
      rcases hl : collectLoop fr fs rest with ⟨r2, evs2⟩
      rw [hl] at ih
      show (evs ++ evs2).all Event.isFwOp = true
      rw [List.all_append]
      exact by simp [h1, ih]

/-- C2 amended.  The loop of lines 197-229 has no per-member exception
handling: when every member before s collects successfully and the
collection of s raises, the whole loop (and hence the run) ends with that
exception — no report is produced, members after s are never queried
(the trace ends with the events of s), and the successfully collected
records before s are discarded. -/
theorem c2_amended_failure_aborts (fr fs : PyVal → Except PyErr PyVal)
    (pre : List PyVal) (s : PyVal) (post : List PyVal) (e : PyErr)
    (hpre : ∀ x ∈ pre, ∃ fw, (collectOne fr fs x).1 = Except.ok fw)
    (hs : (collectOne fr fs s).1 = Except.error e) :
    (collectLoop fr fs (pre ++ s :: post)).1 = Except.error e ∧
    (collectLoop fr fs (pre ++ s :: post)).2 =
      eventsOfList fr fs pre ++ (collectOne fr fs s).2 := by
  induction pre with
  | nil =>
    rw [List.nil_append]
    rcases hc : collectOne fr fs s with ⟨r, evs⟩
    rw [hc] at hs
    simp only at hs
    subst hs
    constructor
    · unfold collectLoop
      rw [hc]
    · unfold collectLoop eventsOfList
      rw [hc]
      rfl
  | cons x pre ih =>
    have hx := hpre x (List.mem_cons_self x pre)
    rcases hx with ⟨fw, hx⟩
    have ih2 := ih (fun y hy => hpre y (List.mem_cons_of_mem x hy))
    rcases hcx : collectOne fr fs x with ⟨rx, evsx⟩
    rw [hcx] at hx
    simp only at hx
    subst hx
    rcases hrest : collectLoop fr fs (pre ++ s :: post) with ⟨rr, evs2⟩
    rw [hrest] at ih2
    simp only at ih2
    constructor
    · show (collectLoop fr fs (x :: (pre ++ s :: post))).1 = Except.error e
      unfold collectLoop
      rw [hcx, hrest]
      simp only [ih2.1, Except.map]
    · show (collectLoop fr fs (x :: (pre ++ s :: post))).2 =
        eventsOfList fr fs (x :: pre) ++ (collectOne fr fs s).2
      unfold collectLoop eventsOfList
      rw [hcx, hrest]
      simp only [ih2.2, hcx, List.append_assoc]

/-- C5 amended.  When the two queries of a member both return but the
system-info body is missing the serial field (hostname and ip-address
being present, so the subscriptions of lines 213-214 succeed first),
the record construction of line 215 raises KeyError("serial"): nothing
is appended for that member, and the loop — having no exception
handling — aborts there, members after it never being queried. -/
theorem c5_amended_missing_serial_aborts (fr fs : PyVal → Except PyErr PyVal)
    (s : PyVal) (rest : List PyVal) (rv sv sysd h ip : PyVal)
    (h1 : fr s = Except.ok rv) (h2 : fs s = Except.ok sv)
    (h3 : systemInfoDict sv = Except.ok sysd)
    (h4 : sysd.getItem "hostname" = Except.ok h)
    (h5 : sysd.getItem "ip-address" = Except.ok ip)
    (h6 : sysd.getItem "serial" = Except.error (PyErr.keyError "serial")) :
    (collectLoop fr fs (s :: rest)).1 = Except.error (PyErr.keyError "serial") ∧
    (collectLoop fr fs (s :: rest)).2 =
      [Event.fwOp s redistAllCmd, Event.fwOp s sysInfoCmd] := by
  have hb : buildFw rv sv = Except.error (PyErr.keyError "serial") := by
    unfold buildFw
    rw [h3, exceptBind_ok, h4, exceptBind_ok, h5, exceptBind_ok, h6, exceptBind_error]
  have hc : collectOne fr fs s =
      (Except.error (PyErr.keyError "serial"),
       [Event.fwOp s redistAllCmd, Event.fwOp s sysInfoCmd]) := by
    unfold collectOne
    rw [h1, h2]
    show (buildFw rv sv, [Event.fwOp s redistAllCmd, Event.fwOp s sysInfoCmd]) =
      (Except.error (PyErr.keyError "serial"),
       [Event.fwOp s redistAllCmd, Event.fwOp s sysInfoCmd])
    rw [hb]
  constructor
  · unfold collectLoop
    rw [hc]
  · unfold collectLoop
    rw [hc]

/-- Witness for the amended C2: the three-member scenario with FW2
failing, instantiating the amended theorem. -/
theorem c2_amended_witness :
    (collectLoop fwRedistGood fwSysFailAtFW2
        ([PyVal.str "FW1"] ++ PyVal.str "FW2" :: [PyVal.str "FW3"])).1 =
      Except.error (PyErr.panError "timeout") ∧
    (collectLoop fwRedistGood fwSysFailAtFW2
        ([PyVal.str "FW1"] ++ PyVal.str "FW2" :: [PyVal.str "FW3"])).2 =
      eventsOfList fwRedistGood fwSysFailAtFW2 [PyVal.str "FW1"] ++
        (collectOne fwRedistGood fwSysFailAtFW2 (PyVal.str "FW2")).2 :=
  c2_amended_failure_aborts fwRedistGood fwSysFailAtFW2 [PyVal.str "FW1"] (PyVal.str "FW2")
    [PyVal.str "FW3"] (PyErr.panError "timeout")
    (by
      intro x hx
      rw [List.mem_singleton] at hx
      subst hx
      exact ⟨fwRecordFor "FW1", rfl⟩)
    rfl

/-- Witness for the amended C5: FW1 with a serial-less system-info
response followed by FW2, instantiating the amended theorem. -/
theorem c5_amended_witness :
    (collectLoop fwRedistGood fwSysNoSerialAtFW1 (PyVal.str "FW1" :: [PyVal.str "FW2"])).1 =
      Except.error (PyErr.keyError "serial") ∧
    (collectLoop fwRedistGood fwSysNoSerialAtFW1 (PyVal.str "FW1" :: [PyVal.str "FW2"])).2 =
      [Event.fwOp (PyVal.str "FW1") redistAllCmd,
       Event.fwOp (PyVal.str "FW1") sysInfoCmd] :=
  c5_amended_missing_serial_aborts fwRedistGood fwSysNoSerialAtFW1 (PyVal.str "FW1")
    [PyVal.str "FW2"] redistOkResp sysRespNoSerial noSerialSysd (PyVal.str "FW1")
    (PyVal.str "10.0.0.1") rfl rfl rfl rfl rfl rfl

/-- C6.  Lines 173-182 normalize the shape of the entry field: a dict
(single object) whose host subscription succeeds registers exactly that
one member, and a list each of whose elements has a host value
registers exactly one member per element, in sequence order (hence as
many members as elements). -/
theorem c6_entry_shape_registration :
    (∀ (kvs : List (String × PyVal)) (h : PyVal),
      (PyVal.dict kvs).getItem "host" = Except.ok h →
      registerMembers (PyVal.dict kvs) = Except.ok [h]) ∧
    (∀ (l hosts : List PyVal),
      List.Forall₂ (fun e h => PyVal.getItem e "host" = Except.ok h) l hosts →
      registerMembers (PyVal.list l) = Except.ok hosts ∧ hosts.length = l.length) := by
  constructor
  · intro kvs h hh
    show (match (PyVal.dict kvs).getItem "host" with
      | Except.error err => Except.error err
      | Except.ok h => Except.ok [h]) = Except.ok [h]
    rw [hh]
  · intro l hosts hf
    constructor
    · show regList l = Except.ok hosts
      induction hf with
      | nil => rfl
      | cons h1 h2 ih =>
        unfold regList
        rw [h1, ih]
    · exact hf.length_eq.symm

/-- Witness for C6: the single-object entry registers one member; a
three-element entry list registers three, in order. -/
theorem c6_witness :
    registerMembers (enumEntryDict "FW1") = Except.ok [PyVal.str "FW1"] ∧
    registerMembers memberList3 =
      Except.ok [PyVal.str "FW1", PyVal.str "FW2", PyVal.str "FW3"] :=
  ⟨c6_entry_shape_registration.1 [("host", PyVal.str "FW1")] (PyVal.str "FW1") rfl,
   (c6_entry_shape_registration.2 [enumEntryDict "FW1", enumEntryDict "FW2", enumEntryDict "FW3"]
      [PyVal.str "FW1", PyVal.str "FW2", PyVal.str "FW3"]
      (List.Forall₂.cons rfl (List.Forall₂.cons rfl
        (List.Forall₂.cons rfl List.Forall₂.nil)))).1⟩

/-- C8.  parse_status_command_output is a total function (the embedding
returns a GateStatus for every string, mirroring that the Python code
raises no exception on any input): whenever one of the three searches
finds no match, the corresponding field of the result is simply
absent. -/
theorem c8_parser_totality (s : String) :
    (searchWith matchStatusAt s.data = none →
      (parse_status_command_output s).redistribution_status = none) ∧
    (searchWith matchSslAt s.data = none →
      (parse_status_command_output s).ssl_config = none) ∧
    (searchWith matchClientsAt s.data = none →
      (parse_status_command_output s).number_of_clients = none) := by
  refine ⟨fun h => ?_, fun h => ?_, fun h => ?_⟩ <;>
    simp [parse_status_command_output, h]

/-- C4 amended.  A PanDeviceError from the identity validation at line
158 is caught at line 160: it never changes the result of the run (the
first
component of runMain agrees for the raising and non-raising cases on
every environment), and the trace of the audit phase records the
error-level
log and then continues with exactly the events of the rest of the audit
— enumeration, registration and per-device collection all still
happen. -/
theorem c4_amended_validation_failure_ignored :
    (∀ (netConnect : Bool) (sendResult : Option String)
       (enumResp connectedResp : Except PyErr PyVal)
       (fwRedist fwSys : PyVal → Except PyErr PyVal),
      (runMain netConnect sendResult true enumResp connectedResp fwRedist fwSys).1 =
        (runMain netConnect sendResult false enumResp connectedResp fwRedist fwSys).1) ∧
    (∀ (enumResp connectedResp : Except PyErr PyVal)
       (fwRedist fwSys : PyVal → Except PyErr PyVal),
      (auditPhase true enumResp connectedResp fwRedist fwSys).2 =
        Event.refreshSystemInfo :: Event.logError "Failed to connect to Panorama" ::
          (auditAfterRefresh enumResp connectedResp fwRedist fwSys).2) := by
  constructor
  · intro nc sr er cr fr fs
    cases nc with
    | false => rfl
    | true =>
      cases sr with
      | none => rfl
      | some s =>
        by_cases hs : s = ""
        · subst hs; rfl
        · simp only [runMain, if_true, if_neg hs]
          cases h1 : (parse_status_command_output s).redistribution_status with
          | none => rfl
          | some st =>
            by_cases h2 : st = "up"
            · simp only [h2, if_pos rfl]
              cases h3 : (parse_status_command_output s).ssl_config with
              | none => rfl
              | some ssl =>
                by_cases h4 : ssl = "default_certificates"
                · simp only [h4, if_pos rfl, if_true]
                  rfl
                · simp only [if_neg h4]
            · simp only [if_neg h2]
  · intro er cr fr fs
    rfl

/-- Witness for C8 on entirely unrelated text. -/
theorem c8_witness :
    (parse_status_command_output "** garbage: input **").redistribution_status = none ∧
    (parse_status_command_output "** garbage: input **").ssl_config = none ∧
    (parse_status_command_output "** garbage: input **").number_of_clients = none :=
  ⟨(c8_parser_totality "** garbage: input **").1 rfl,
   (c8_parser_totality "** garbage: input **").2.1 rfl,
   (c8_parser_totality "** garbage: input **").2.2 rfl⟩

/-- Every event emitted from the connected-devices query on is a
management-API operation on the Panorama or on a firewall. -/
lemma afterConnected_events_panOrFw (cr : Except PyErr PyVal) (children : List PyVal)
    (fr fs : PyVal → Except PyErr PyVal) :
    ((afterConnected cr children fr fs).2).all (fun ev => ev.isPanOp || ev.isFwOp) = true := by
  cases cr with
  | error e => rfl
  | ok w =>
    have hl := collectLoop_events_fwOp fr fs children
    rw [List.all_eq_true] at hl
    show (([Event.panOp redistAllCmd, Event.panOp connectedCmd] ++
      (collectLoop fr fs children).2).all (fun ev => ev.isPanOp || ev.isFwOp)) = true
    rw [List.all_append]
    have h2 : ((collectLoop fr fs children).2).all
        (fun ev => ev.isPanOp || ev.isFwOp) = true := by
      rw [List.all_eq_true]
      intro x hx
      simp [hl x hx]
    rw [h2]
    rfl

/-- Every event of the audit tail after the refresh step is a
management-API operation on the Panorama or on a firewall. -/
lemma auditAfterRefresh_events_panOrFw (er cr : Except PyErr PyVal)
    (fr fs : PyVal → Except PyErr PyVal) :
    ((auditAfterRefresh er cr fr fs).2).all (fun ev => ev.isPanOp || ev.isFwOp) = true := by
  cases er with
  | error e => rfl
  | ok v =>
    show ((afterEntry (getEntry v) cr fr fs).2).all (fun ev => ev.isPanOp || ev.isFwOp) = true
    cases getEntry v with
    | error e => rfl
    | ok entry =>
      show ((afterRegister (registerMembers entry) cr fr fs).2).all
        (fun ev => ev.isPanOp || ev.isFwOp) = true
      cases registerMembers entry with
      | error e => rfl
      | ok children => exact afterConnected_events_panOrFw cr children fr fs

/-- The audit phase never emits a disconnect event. -/
lemma auditPhase_no_disconnect (rr : Bool) (er cr : Except PyErr PyVal)
    (fr fs : PyVal → Except PyErr PyVal) :
    ((auditPhase rr er cr fr fs).2).countP (fun ev => ev.isDisconnect) = 0 := by
  have h := auditAfterRefresh_events_panOrFw er cr fr fs
  rw [List.all_eq_true] at h
  show ((refreshEvents rr ++ (auditAfterRefresh er cr fr fs).2).countP
    (fun ev => ev.isDisconnect)) = 0
  rw [List.countP_append]
  have h1 : (refreshEvents rr).countP (fun ev => ev.isDisconnect) = 0 := by
    cases rr <;> rfl
  have h2 : ((auditAfterRefresh er cr fr fs).2).countP (fun ev => ev.isDisconnect) = 0 := by
    rw [List.countP_eq_zero]
    intro a ha
    have := h a ha
    cases a <;> simp_all [Event.isDisconnect, Event.isPanOp, Event.isFwOp]
  rw [h1, h2]

/-- The gate-passing trace prefix holds exactly one disconnect, given a
disconnect-free tail. -/
lemma countP_disconnect_gate (tail : List Event)
    (h : tail.countP (fun ev => ev.isDisconnect) = 0) :
    (Event.connect :: Event.send statusCmdText :: Event.disconnect :: tail).countP
      (fun ev => ev.isDisconnect) = 1 := by
  rw [List.countP_cons, List.countP_cons, List.countP_cons, h]
  decide

/-- Everything before the disconnect in the gate-passing trace is a
non-API event, whatever follows the disconnect. -/
lemma takeWhile_gate_all_nonApi (tail : List Event) :
    ((Event.connect :: Event.send statusCmdText :: Event.disconnect :: tail).takeWhile
      (fun ev => !ev.isDisconnect)).all (fun ev => !ev.isApiOp) = true := rfl

/-- C9.  Whenever the netmiko session is opened successfully, every run
— whatever the gate command returned (output, empty output, or the
caught command failure modelled by none) and whatever the audit does —
emits exactly one disconnect event, and every event before that
disconnect is a non-API event: the session is closed exactly once,
before any management-API operation. -/
theorem c9_session_closed_once_before_api (sendResult : Option String) (refreshRaises : Bool)
    (enumResp connectedResp : Except PyErr PyVal)
    (fwRedist fwSys : PyVal → Except PyErr PyVal) :
    ((runMain true sendResult refreshRaises enumResp connectedResp fwRedist fwSys).2.countP
        (fun ev => ev.isDisconnect)) = 1 ∧
    (((runMain true sendResult refreshRaises enumResp connectedResp fwRedist
        fwSys).2.takeWhile (fun ev => !ev.isDisconnect)).all
        (fun ev => !ev.isApiOp)) = true := by
  cases sendResult with
  | none => exact ⟨rfl, rfl⟩
  | some s =>
    by_cases hs : s = ""
    · subst hs; exact ⟨rfl, rfl⟩
    · simp only [runMain, if_true, if_neg hs]
      cases h1 : (parse_status_command_output s).redistribution_status with
      | none => exact ⟨rfl, rfl⟩
      | some st =>
        by_cases h2 : st = "up"
        · simp only [h2, if_pos rfl]
          cases h3 : (parse_status_command_output s).ssl_config with
          | none => exact ⟨rfl, rfl⟩
          | some ssl =>
            by_cases h4 : ssl = "default_certificates"
            · simp only [h4, if_pos rfl, if_true]
              simp only [List.append_nil, List.nil_append, List.cons_append,
                List.append_assoc]
              exact ⟨countP_disconnect_gate _
                  (auditPhase_no_disconnect refreshRaises enumResp connectedResp
                    fwRedist fwSys),
                takeWhile_gate_all_nonApi _⟩
            · simp only [if_neg h4]
              exact ⟨rfl, rfl⟩
        · simp only [if_neg h2]
          exact ⟨rfl, rfl⟩

/-- The collection loop never issues the connected-devices query. -/
lemma collectLoop_no_connectedOp (fr fs : PyVal → Except PyErr PyVal) (l : List PyVal) :
    ((collectLoop fr fs l).2).countP (fun ev => ev.isConnectedOp) = 0 := by
  have h := collectLoop_events_fwOp fr fs l
  rw [List.all_eq_true] at h
  rw [List.countP_eq_zero]
  intro a ha
  have := h a ha
  cases a <;> simp_all [Event.isConnectedOp, Event.isFwOp]

/-- C10.  The connected-devices response is dead data: two runs whose
environments agree except for the body returned by that query produce
identical results and identical traces (hence identical reports and,
renderTable being a function of the report, identical tables).  In the
audit tail the query is issued at most once, and when it is issued,
everything before it is exactly the enumeration query. -/
theorem c10_connected_devices_inert :
    (∀ (netConnect : Bool) (sendResult : Option String) (refreshRaises : Bool)
       (enumResp : Except PyErr PyVal) (fwRedist fwSys : PyVal → Except PyErr PyVal)
       (v1 v2 : PyVal),
      runMain netConnect sendResult refreshRaises enumResp (Except.ok v1) fwRedist fwSys =
        runMain netConnect sendResult refreshRaises enumResp (Except.ok v2)
          fwRedist fwSys) ∧
    (∀ (er cr : Except PyErr PyVal) (fr fs : PyVal → Except PyErr PyVal),
      ((auditAfterRefresh er cr fr fs).2).countP (fun ev => ev.isConnectedOp) ≤ 1 ∧
      (((auditAfterRefresh er cr fr fs).2).countP (fun ev => ev.isConnectedOp) = 1 →
        ((auditAfterRefresh er cr fr fs).2).takeWhile (fun ev => !ev.isConnectedOp) =
          [Event.panOp redistAllCmd])) := by
  constructor
  · intro nc sr rr er fr fs v1 v2
    rfl
  · intro er cr fr fs
    cases er with
    | error e =>
      refine ⟨?_, fun h => absurd h ?_⟩
      · show ([Event.panOp redistAllCmd].countP (fun ev => ev.isConnectedOp)) ≤ 1
        decide
      · show ¬([Event.panOp redistAllCmd].countP (fun ev => ev.isConnectedOp)) = 1
        decide
    | ok v =>
      show ((afterEntry (getEntry v) cr fr fs).2).countP (fun ev => ev.isConnectedOp) ≤ 1 ∧
        (((afterEntry (getEntry v) cr fr fs).2).countP (fun ev => ev.isConnectedOp) = 1 →
          ((afterEntry (getEntry v) cr fr fs).2).takeWhile (fun ev => !ev.isConnectedOp) =
            [Event.panOp redistAllCmd])
      cases getEntry v with
      | error e =>
        refine ⟨?_, fun h => absurd h ?_⟩
        · show ([Event.panOp redistAllCmd].countP (fun ev => ev.isConnectedOp)) ≤ 1
          decide
        · show ¬([Event.panOp redistAllCmd].countP (fun ev => ev.isConnectedOp)) = 1
          decide
      | ok entry =>
        show ((afterRegister (registerMembers entry) cr fr fs).2).countP
            (fun ev => ev.isConnectedOp) ≤ 1 ∧
          (((afterRegister (registerMembers entry) cr fr fs).2).countP
              (fun ev => ev.isConnectedOp) = 1 →
            ((afterRegister (registerMembers entry) cr fr fs).2).takeWhile
              (fun ev => !ev.isConnectedOp) = [Event.panOp redistAllCmd])
        cases registerMembers entry with
        | error e =>
          refine ⟨?_, fun h => absurd h ?_⟩
          · show ([Event.panOp redistAllCmd].countP (fun ev => ev.isConnectedOp)) ≤ 1
            decide
          · show ¬([Event.panOp redistAllCmd].countP (fun ev => ev.isConnectedOp)) = 1
            decide
        | ok children =>
          cases cr with
          | error e =>
            refine ⟨?_, fun _ => ?_⟩
            · show (([Event.panOp redistAllCmd, Event.panOp connectedCmd]).countP
                (fun ev => ev.isConnectedOp)) ≤ 1
              decide
            · show (([Event.panOp redistAllCmd, Event.panOp connectedCmd]).takeWhile
                (fun ev => !ev.isConnectedOp)) = [Event.panOp redistAllCmd]
              rfl
          | ok w =>
            have hc : (([Event.panOp redistAllCmd, Event.panOp connectedCmd] ++
                (collectLoop fr fs children).2).countP (fun ev => ev.isConnectedOp)) = 1 := by
              rw [List.countP_append, collectLoop_no_connectedOp]
              decide
            refine ⟨?_, fun _ => ?_⟩
            · show (([Event.panOp redistAllCmd, Event.panOp connectedCmd] ++
                (collectLoop fr fs children).2).countP (fun ev => ev.isConnectedOp)) ≤ 1
              exact hc.le
            · show (([Event.panOp redistAllCmd, Event.panOp connectedCmd] ++
                (collectLoop fr fs children).2).takeWhile (fun ev => !ev.isConnectedOp)) =
                [Event.panOp redistAllCmd]
              rfl

/-- Witness for C10: a concrete pair of runs differing only in the
connected-devices body, and the concrete at-most-once/after-enumeration
facts, instantiating the theorem. -/
theorem c10_witness :
    runMain true (some gateTextPass) false (.ok (enumRespOf (enumEntryDict "FW1")))
        (.ok (PyVal.str "bodyA")) fwRedistGood fwSysGood =
      runMain true (some gateTextPass) false (.ok (enumRespOf (enumEntryDict "FW1")))
        (.ok (PyVal.str "bodyB")) fwRedistGood fwSysGood ∧
    ((auditAfterRefresh (.ok (enumRespOf (enumEntryDict "FW1"))) (.ok PyVal.none)
        fwRedistGood fwSysGood).2).takeWhile (fun ev => !ev.isConnectedOp) =
      [Event.panOp redistAllCmd] :=
  ⟨c10_connected_devices_inert.1 true (some gateTextPass) false
      (.ok (enumRespOf (enumEntryDict "FW1"))) fwRedistGood fwSysGood
      (PyVal.str "bodyA") (PyVal.str "bodyB"),
   (c10_connected_devices_inert.2 (.ok (enumRespOf (enumEntryDict "FW1"))) (.ok PyVal.none)
      fwRedistGood fwSysGood).2 rfl⟩

/-- C5 counterexample.  The system-info response of member FW1 has hostname
and ip-address but no serial.  No partially-filled record is appended,
but contrary to the claim the run does not continue with the remaining
member: line 215 raises KeyError and the run aborts, FW2 never being
queried. -/
theorem c5_counterexample :
    runMain true (some gateTextPass) false
        (.ok (enumRespOf (PyVal.list [enumEntryDict "FW1", enumEntryDict "FW2"])))
        (.ok PyVal.none) fwRedistGood fwSysNoSerialAtFW1 =
      (.error (.keyError "serial"),
       [Event.connect, Event.send statusCmdText, Event.disconnect, Event.refreshSystemInfo,
        Event.logDebug "Successfully connected to Panorama with credientials",
        Event.panOp redistAllCmd, Event.panOp connectedCmd,
        Event.fwOp (PyVal.str "FW1") redistAllCmd,
        Event.fwOp (PyVal.str "FW1") sysInfoCmd]) :=
  rfl
